import Mathlib

/-
Verification development for the Aafiya nutrition-coaching repository
(`app.py`, `nutrition_rag.py`).

Modelling conventions:
- Python strings are modelled as `List Char` (`PyStr`); `pls` converts a
  Lean string literal to that model.
- Python `str.lower`, `str.strip`, `str.split`, `str.split(',')`,
  `"sep".join`, the `in` substring test, and `str.count` are modelled by
  `pyLower`, `pyStrip`, `pyWords`, `pySplitComma`, `pyJoin`, `pyIn`,
  `pyCount` below, matching CPython semantics on the ASCII inputs the
  program manipulates.
- Python numbers in the nutrition table are modelled as `ℚ`; `round(x)`
  and `round(x, 1)` (banker's rounding) are `pyRound0` / `pyRound1`.
- Streamlit session state is modelled by explicit state passing: each
  stateful operation takes the stored value and returns the new one.
-/

/-- Model of a Python `str` value as its list of characters. -/
abbrev PyStr := List Char

/-- Convert a Lean string literal into the Python-string model. -/
def pls (s : String) : PyStr := s.data

/-- Whitespace test used by Python `str.split()` and `str.strip()`. -/
def pyWs (c : Char) : Bool := c.isWhitespace

/-- Model of Python `str.lower()` (ASCII case folding). -/
def pyLower (s : PyStr) : PyStr := s.map Char.toLower

/-- Model of the Python substring test `needle in hay`. -/
def pyIn (needle hay : PyStr) : Bool := decide (needle <:+: hay)

/-- Model of Python `str.strip()`: drop whitespace from both ends. -/
def pyStrip (s : PyStr) : PyStr :=
  ((s.dropWhile pyWs).reverse.dropWhile pyWs).reverse

/-- Accumulator loop behind `pyWords`; `acc` holds the reversed current word. -/
def pyWordsAux : PyStr → PyStr → List PyStr
  | [], acc => if acc = [] then [] else [acc.reverse]
  | c :: cs, acc =>
    if pyWs c then
      if acc = [] then pyWordsAux cs [] else acc.reverse :: pyWordsAux cs []
    else
      pyWordsAux cs (c :: acc)

/-- Model of Python `str.split()` with no argument: maximal runs of
non-whitespace characters, with empty pieces never produced. -/
def pyWords (s : PyStr) : List PyStr := pyWordsAux s []

/-- Model of Python `"sep".join(parts)`. -/
def pyJoin (sep : PyStr) : List PyStr → PyStr
  | [] => []
  | [w] => w
  | w :: ws => w ++ sep ++ pyJoin sep ws

/-- Model of Python `str.split(',')`: split at every comma, keeping empty
pieces; the empty string yields `[""]`. -/
def pySplitComma : PyStr → List PyStr
  | [] => [[]]
  | c :: cs =>
    if c = ',' then [] :: pySplitComma cs
    else
      match pySplitComma cs with
      | [] => [[c]]
      | w :: rest => (c :: w) :: rest

/-- Fuel-indexed scan behind `pyCount`; the fuel is an upper bound on the
length of the remaining text, so it never runs out. -/
def pyCountFuel (needle : PyStr) : Nat → PyStr → Nat
  | _, [] => 0
  | 0, _ => 0
  | fuel + 1, c :: cs =>
    if needle <+: (c :: cs) then
      1 + pyCountFuel needle fuel ((c :: cs).drop needle.length)
    else
      pyCountFuel needle fuel cs

/-- Model of Python `hay.count(needle)`: non-overlapping left-to-right
occurrence count; the empty needle counts `len(hay) + 1` as in CPython. -/
def pyCount (needle hay : PyStr) : Nat :=
  if needle = [] then hay.length + 1 else pyCountFuel needle hay.length hay

/-- Banker's rounding of a rational to an integer, as Python `round(x)`. -/
def pyRound0 (q : ℚ) : ℤ :=
  let f : ℤ := ⌊q⌋
  let r : ℚ := q - f
  if r < 1 / 2 then f
  else if 1 / 2 < r then f + 1
  else if f % 2 = 0 then f else f + 1

/-- Python `round(x, 1)`: banker's rounding to one decimal place. -/
def pyRound1 (q : ℚ) : ℚ := (pyRound0 (q * 10) : ℚ) / 10

/-
Source: `nutrition_rag.py`.
-/

/-- Embedding of `chunk_text` (`nutrition_rag.py` lines 70-80): split into
whitespace words, take windows of `chunk_size` words advancing by
`chunk_size - overlap`, rejoin each window with single spaces, keep the
stripped window when it is non-empty.  The Python loop
`for i in range(0, len(words), chunk_size - overlap)` visits
`⌈len(words) / step⌉` indices `0, step, 2·step, …`. -/
def chunk_text (text : PyStr) (chunk_size overlap : Nat) : List PyStr :=
  let words := pyWords text
  let step := chunk_size - overlap
  let idxs := List.range' 0 ((words.length + step - 1) / step) step
  (idxs.map (fun i => pyJoin [' '] ((words.drop i).take chunk_size))).filterMap
    (fun chunk => if pyStrip chunk ≠ [] then some (pyStrip chunk) else none)

/-- Scored-chunk record built by `simple_keyword_search`
(the Python dict `{'chunk': …, 'score': …, 'index': …}`). -/
structure ScoredChunk where
  chunk : PyStr
  score : Nat
  index : Nat
deriving DecidableEq

/-- Keyword-match part of the score in `simple_keyword_search`
(`nutrition_rag.py` lines 91-94): for each query word that occurs in the
lower-cased chunk, add its occurrence count. -/
def tokenHits (query chunk : PyStr) : Nat :=
  let chunk_lower := pyLower chunk
  (pyWords (pyLower query)).foldl
    (fun s word => if pyIn word chunk_lower then s + pyCount word chunk_lower else s) 0

/-- Full chunk score of `simple_keyword_search` (lines 91-98): keyword
hits plus a flat bonus of 5 for an exact phrase match. -/
def scoreOf (query chunk : PyStr) : Nat :=
  tokenHits query chunk +
    (if pyIn (pyLower query) (pyLower chunk) then 5 else 0)

/-- Scoring loop of `simple_keyword_search` (lines 87-105), started at
index `i`: chunks with score 0 are not collected. -/
def scoredChunksFrom (query : PyStr) : List PyStr → Nat → List ScoredChunk
  | [], _ => []
  | c :: cs, i =>
    (if 0 < scoreOf query c then [⟨c, scoreOf query c, i⟩] else [])
      ++ scoredChunksFrom query cs (i + 1)

/-- Descending-score comparison used to model
`scored_chunks.sort(key=lambda x: x['score'], reverse=True)`; Python's
sort is stable, as is insertion sort with this relation. -/
def byScoreDesc (a b : ScoredChunk) : Prop := b.score ≤ a.score

instance : DecidableRel byScoreDesc := fun a b => Nat.decLe b.score a.score

/-- Embedding of `simple_keyword_search` (`nutrition_rag.py` lines
82-109): collect positively scored chunks, sort by score descending
(stably), return the first `top_k`. -/
def simple_keyword_search (query : PyStr) (chunks : List PyStr) (top_k : Nat) :
    List ScoredChunk :=
  (List.insertionSort byScoreDesc (scoredChunksFrom query chunks 0)).take top_k

/-- Stored document record (`nutrition_rag.py` lines 175-181); the dict
key `type` is rendered as the field `ftype`. -/
structure Document where
  name : PyStr
  content : PyStr
  chunks : List PyStr
  ftype : PyStr
  size : Nat
deriving DecidableEq

/-- Cross-document relevant-chunk record of `build_context_from_documents`
(the dict `{'text': …, 'document': …, 'score': …}`). -/
structure RelevantChunk where
  text : PyStr
  document : PyStr
  score : Nat
deriving DecidableEq

/-- Descending-score comparison for the pooled chunks in
`build_context_from_documents`. -/
def relByScoreDesc (a b : RelevantChunk) : Prop := b.score ≤ a.score

instance : DecidableRel relByScoreDesc := fun a b => Nat.decLe b.score a.score

/-- Pooling loop of `build_context_from_documents` (`nutrition_rag.py`
lines 116-127): per document, retrieve with `top_k=2` and tag each hit
with the document name. -/
def allRelevantChunks (query : PyStr) : List Document → List RelevantChunk
  | [] => []
  | doc :: rest =>
    (if doc.chunks ≠ [] then
      (simple_keyword_search query doc.chunks 2).map
        (fun item => ⟨item.chunk, doc.name, item.score⟩)
     else [])
      ++ allRelevantChunks query rest

/-- Rendering of the context block (`nutrition_rag.py` lines 136-144)
from the already-formatted per-chunk parts. -/
def renderContext (parts : List PyStr) : PyStr :=
  pls "\n\n--- RELEVANT NUTRITION INFORMATION ---\n"
    ++ pyJoin (pls "\n\n") parts
    ++ pls "\n--- END NUTRITION INFORMATION ---\n\n"

/-- Embedding of `build_context_from_documents` (`nutrition_rag.py` lines
111-144): empty input or an empty pool yields the empty string; otherwise
the pool is sorted by score descending, the top 3 are kept and rendered. -/
def build_context_from_documents (query : PyStr) (documents : List Document) :
    PyStr :=
  if documents = [] then []
  else
    let pool := allRelevantChunks query documents
    if pool = [] then []
    else
      let top := (List.insertionSort relByScoreDesc pool).take 3
      renderContext (top.map (fun c => pls "From " ++ c.document ++ pls ":\n" ++ c.text))

/-- Document constructor used by the uploader loop (`nutrition_rag.py`
lines 173-183): content is chunked with the default
`chunk_text(content)` parameters 500 / 50. -/
def mkDocument (name content ftype : PyStr) : Document :=
  ⟨name, content, chunk_text content 500 50, ftype, content.length⟩

/-- Embedding of the per-file loop of `nutrition_document_uploader`
(`nutrition_rag.py` lines 161-183), with the Streamlit UI stripped away:
each uploaded file is given as its name, its already-ingested text
content, and its MIME type (ingestion itself touches no stored state).
A file whose name is already stored is skipped; a file whose ingested
content is empty is not stored (`if content:`); otherwise a new document
is appended. -/
def nutrition_document_uploader (stored : List Document) :
    List (PyStr × PyStr × PyStr) → List Document
  | [] => stored
  | (name, content, ftype) :: rest =>
    if stored.any (fun doc => decide (doc.name = name)) then
      nutrition_document_uploader stored rest
    else if content ≠ [] then
      nutrition_document_uploader (stored ++ [mkDocument name content ftype]) rest
    else
      nutrition_document_uploader stored rest

/-
Source: `app.py`.
-/

/-- Static unsafe-phrase catalogue of `check_nutrition_safety`
(`app.py` lines 1760-1782), in source order. -/
def unsafe_patterns : List PyStr :=
  [pls "extreme diet", pls "crash diet", pls "starvation", pls "no food",
   pls "skip meals", pls "fast for days",
   pls "eat nothing", pls "stop eating", pls "starve yourself",
   pls "severe calorie restriction",
   pls "dangerous", pls "harmful", pls "toxic", pls "poison", pls "laxatives",
   pls "diet pills", pls "weight loss pills",
   pls "appetite suppressants", pls "fat burners", pls "detox tea",
   pls "cleanse pills",
   pls "eating disorder", pls "anorexia", pls "bulimia", pls "binge eating",
   pls "purging", pls "vomiting",
   pls "pro ana", pls "pro mia", pls "thinspo", pls "skinny goals",
   pls "self harm", pls "hurt yourself", pls "punish yourself",
   pls "exercise until exhaustion",
   pls "workout punishment", pls "food punishment", pls "guilt eating",
   pls "cure diabetes", pls "cure cancer", pls "magic weight loss",
   pls "miracle diet",
   pls "lose 20 pounds in a week", pls "instant results",
   pls "no exercise needed",
   pls "sexual", pls "explicit", pls "violence", pls "hate",
   pls "discrimination", pls "racist",
   pls "suicide", pls "death", pls "kill", pls "murder"]

/-- Embedding of `check_nutrition_safety` (`app.py` lines 1758-1816) with
the classifier backend absent (`SENTIMENT_AVAILABLE = False`), so only
the always-running pattern stage contributes: flagged patterns are the
catalogue entries occurring in the lower-cased text, in catalogue order,
and the verdict is `len(flagged) == 0`. -/
def check_nutrition_safety (text : PyStr) : Bool × List PyStr :=
  let flagged := unsafe_patterns.filter (fun p => pyIn p (pyLower text))
  (flagged.length == 0, flagged)

/-- Allergy-string parsing in `filter_recipe_for_user_safety` (`app.py`
lines 2046-2049): a non-empty string is split on commas and each token
stripped and lower-cased; the empty string yields no tokens. -/
def parsedAllergies (user_allergies_str : PyStr) : List PyStr :=
  if user_allergies_str ≠ [] then
    (pySplitComma user_allergies_str).map (fun a => pyLower (pyStrip a))
  else []

/-- Allergen detection loop of `filter_recipe_for_user_safety` (`app.py`
lines 2055-2061): parsed allergy tokens occurring in the lower-cased
recipe, in token order. -/
def detectedAllergens (recipe_text user_allergies_str : PyStr) : List PyStr :=
  (parsedAllergies user_allergies_str).filter
    (fun a => pyIn a (pyLower recipe_text))

/-- Unpreferred-food detection loop (`app.py` lines 2052, 2064-2067). -/
def detectedUnpreferred (recipe_text : PyStr) (unpreferred_foods_list : List PyStr) :
    List PyStr :=
  (unpreferred_foods_list.map (fun f => pyLower (pyStrip f))).filter
    (fun f => pyIn f (pyLower recipe_text))

/-- Warning lines of `filter_recipe_for_user_safety` (`app.py` lines
2069-2074): one allergy warning listing all detected allergens, then one
informational note listing all detected unpreferred foods. -/
def recipeWarnings (recipe_text user_allergies_str : PyStr)
    (unpreferred_foods_list : List PyStr) : List PyStr :=
  (if detectedAllergens recipe_text user_allergies_str ≠ [] then
    [pls "⚠️ **ALLERGY WARNING**: This recipe contains: "
      ++ pyJoin (pls ", ") (detectedAllergens recipe_text user_allergies_str)]
   else [])
  ++ (if detectedUnpreferred recipe_text unpreferred_foods_list ≠ [] then
    [pls "ℹ️ **Note**: This recipe contains foods you prefer to avoid: "
      ++ pyJoin (pls ", ") (detectedUnpreferred recipe_text unpreferred_foods_list)]
   else [])

/-- Result tuple of `filter_recipe_for_user_safety`
(`is_safe, filtered_content, warnings`). -/
structure FilterResult where
  is_safe : Bool
  filtered_content : PyStr
  warnings : List PyStr

/-- Embedding of `filter_recipe_for_user_safety` (`app.py` lines
2037-2084): `is_safe` is cleared exactly when some allergen is detected;
when any warnings exist they are joined with newlines, extended with the
medical disclaimer when unsafe, and prepended (separated by blank lines)
to the unmodified recipe text. -/
def filter_recipe_for_user_safety (recipe_text user_allergies_str : PyStr)
    (unpreferred_foods_list : List PyStr) : FilterResult :=
  let detected := detectedAllergens recipe_text user_allergies_str
  let warnings := recipeWarnings recipe_text user_allergies_str unpreferred_foods_list
  let is_safe := detected.isEmpty
  let filtered_content :=
    if warnings ≠ [] then
      (pls "\n\n" ++ pyJoin (pls "\n") warnings
        ++ (if !is_safe then
              pls "\n\n🚨 **Please consult with a healthcare provider before consuming foods you\u0027re allergic to.**"
            else []))
        ++ pls "\n\n" ++ recipe_text
    else recipe_text
  ⟨is_safe, filtered_content, warnings⟩

/-- Entry of the local fallback table `food_db` in `calculate_nutrition`
(`app.py` lines 1668-1706). -/
structure FoodEntry where
  key : PyStr
  calories : ℚ
  protein : ℚ
  carbs : ℚ
  fat : ℚ

/-- The local `food_db` dictionary (`app.py` lines 1668-1706) in source
(insertion) order, which is the Python dict iteration order. -/
def food_db : List FoodEntry :=
  [⟨pls "egg", 70, 6, 0.5, 5⟩,
   ⟨pls "toast", 80, 3, 15, 1⟩,
   ⟨pls "apple", 95, 0.5, 25, 0.3⟩,
   ⟨pls "banana", 105, 1.3, 27, 0.4⟩,
   ⟨pls "chicken breast", 165, 31, 0, 3.6⟩,
   ⟨pls "chicken", 165, 31, 0, 3.6⟩,
   ⟨pls "rice", 130, 2.7, 28, 0.3⟩,
   ⟨pls "salmon", 208, 22, 0, 12⟩,
   ⟨pls "broccoli", 25, 3, 5, 0.3⟩,
   ⟨pls "bread", 75, 2.5, 14, 1⟩,
   ⟨pls "pasta", 220, 8, 44, 1.5⟩,
   ⟨pls "pizza", 285, 12, 36, 10⟩,
   ⟨pls "salad", 20, 1.5, 4, 0.2⟩,
   ⟨pls "beef", 250, 26, 0, 17⟩,
   ⟨pls "pork", 242, 27, 0, 14⟩,
   ⟨pls "fish", 206, 22, 0, 12⟩,
   ⟨pls "tuna", 154, 25, 0, 5⟩,
   ⟨pls "turkey", 135, 25, 0, 3.2⟩,
   ⟨pls "cheese", 113, 7, 1, 9⟩,
   ⟨pls "milk", 42, 3.4, 5, 1⟩,
   ⟨pls "yogurt", 59, 10, 3.6, 0.4⟩,
   ⟨pls "oatmeal", 68, 2.4, 12, 1.4⟩,
   ⟨pls "cereal", 379, 8, 84, 1.5⟩,
   ⟨pls "orange", 47, 0.9, 12, 0.1⟩,
   ⟨pls "grape", 69, 0.6, 16, 0.4⟩,
   ⟨pls "carrot", 25, 0.5, 6, 0.1⟩,
   ⟨pls "potato", 77, 2, 17, 0.1⟩,
   ⟨pls "tomato", 18, 0.9, 3.9, 0.2⟩,
   ⟨pls "lettuce", 5, 0.5, 1, 0.1⟩,
   ⟨pls "spinach", 7, 0.9, 1.1, 0.1⟩,
   ⟨pls "burger", 354, 17, 31, 17⟩,
   ⟨pls "sandwich", 300, 15, 35, 12⟩,
   ⟨pls "soup", 85, 4, 12, 2.5⟩,
   ⟨pls "steak", 271, 26, 0, 19⟩,
   ⟨pls "avocado", 234, 2.9, 12, 21⟩]

/-- Quantity-multiplier extraction of `calculate_nutrition` (`app.py`
lines 1708-1718): crude textual cues on the quantity string and the
lower-cased food description. -/
def nutritionMultiplier (food_lower quantity : PyStr) : ℚ :=
  if pyIn (pls "2") quantity || pyIn (pls "two") food_lower then 2
  else if pyIn (pls "3") quantity || pyIn (pls "three") food_lower then 3
  else if pyIn (pls "half") food_lower || pyIn (pls "0.5") quantity then 1 / 2
  else 1

/-- Category-heuristic baselines of `calculate_nutrition` (`app.py` lines
1733-1745): meat, fruit, vegetable, grain, else the generic default. -/
def estimatedNutrition (food_lower : PyStr) : ℚ × ℚ × ℚ × ℚ :=
  if [pls "meat", pls "chicken", pls "beef", pls "pork", pls "fish"].any
      (fun w => pyIn w food_lower) then (200, 25, 2, 8)
  else if [pls "fruit", pls "apple", pls "orange", pls "berry"].any
      (fun w => pyIn w food_lower) then (80, 1, 20, 0.5)
  else if [pls "vegetable", pls "broccoli", pls "carrot", pls "spinach"].any
      (fun w => pyIn w food_lower) then (30, 2, 6, 0.3)
  else if [pls "bread", pls "pasta", pls "rice", pls "grain"].any
      (fun w => pyIn w food_lower) then (180, 6, 35, 2)
  else (150, 8, 20, 5)

/-- Result dict of `calculate_nutrition`; the optional `note` field of
the estimated branch is omitted as it carries no claim-relevant data. -/
structure NutritionResult where
  food : PyStr
  quantity : PyStr
  calories : ℤ
  protein : ℚ
  carbs : ℚ
  fat : ℚ
  success : Bool
  source : PyStr

/-- Embedding of `calculate_nutrition` (`app.py` lines 1659-1756).  The
first argument is the outcome of `get_edamam_nutrition`: `none` models
the external API being unavailable (non-200, missing credential, network
exception, or zero-calorie payload), which is the hypothesis of the
claims checked here.  The fallback searches `food_db` for the first key
occurring in the lower-cased description, scales by the multiplier and
rounds; with no table match it falls back to the category heuristic with
`success = false` and `source = "Estimated"`. -/
def calculate_nutrition (edamam_result : Option NutritionResult)
    (food_item quantity : PyStr) : NutritionResult :=
  match edamam_result with
  | some r => r
  | none =>
    let food_lower := pyLower food_item
    let m := nutritionMultiplier food_lower quantity
    match food_db.find? (fun e => pyIn e.key food_lower) with
    | some e =>
      ⟨food_item, quantity, pyRound0 (e.calories * m), pyRound1 (e.protein * m),
        pyRound1 (e.carbs * m), pyRound1 (e.fat * m), true, pls "Local Database"⟩
    | none =>
      let est := estimatedNutrition food_lower
      ⟨food_item, quantity, pyRound0 (est.1 * m), pyRound1 (est.2.1 * m),
        pyRound1 (est.2.2.1 * m), pyRound1 (est.2.2.2 * m), false, pls "Estimated"⟩

/-- Fixed response recorded for a safety-blocked request (`app.py` line
2122). -/
def flaggedResponseText : PyStr := pls "Content flagged for safety and blocked"

/-- Fixed apology recorded when the request pipeline raises (`app.py`
line 2513). -/
def errorResponseText : PyStr :=
  pls "Sorry, there was an issue processing your request. Please try again."

/-- Fallback text of the non-streaming branch when generation returns a
falsy response (`app.py` line 2419). -/
def noResponseText : PyStr :=
  pls "Sorry, I couldn\u0027t generate a response. Please try again."

/-- Recipe-detection keywords guarding the recipe-filtering block
(`app.py` lines 2253, 2425). -/
def recipeKeywords : List PyStr :=
  [pls "recipe", pls "ingredients", pls "meal plan", pls "breakfast",
   pls "lunch", pls "dinner"]

/-- Chat-history record saved by `process_nutrition_request`; the
`temperature`, `function_result`, `nutrition_data` and wall-clock
`timestamp` entries of the Python dict are claim-irrelevant metadata and
are not modelled. -/
structure ChatEntry where
  prompt : PyStr
  response : PyStr
  persona : PyStr
  has_image : Bool
  request_type : PyStr

/-- Outcome of the external generation call inside the `try` block of
`process_nutrition_request`: a generated text, a falsy response object,
or an exception raised by the pipeline (generation failure, image read,
etc.) before the history record is written.  Session state
(`chat_history`, `meal_log`, `nutrition_data`) is initialised at app
start (`app.py` lines 1536-1541), so the statements after the history
append do not raise. -/
inductive GenOutcome where
  | success (text : PyStr)
  | noResponse
  | genFailure
deriving DecidableEq

/-- Tail of the `try` block of `process_nutrition_request` (`app.py`
lines 2424-2477) once `response_text` is determined.  The recipe block at
line 2425 calls `filter_recipe_for_user_safety(response_text)` with a
single argument, which raises `TypeError` (the function requires three),
so a truthy response containing a recipe keyword lands in the `except`
handler and records the fixed apology; otherwise the normal record with
`response_text` is appended. -/
def finishNutritionRequest (chat_history : List ChatEntry)
    (prompt_to_use : PyStr) (has_image : Bool)
    (selected_persona request_type response_text : PyStr) : List ChatEntry :=
  if response_text ≠ [] ∧
      recipeKeywords.any (fun k => pyIn k (pyLower response_text)) then
    chat_history ++
      [⟨prompt_to_use, errorResponseText, selected_persona, has_image, request_type⟩]
  else
    chat_history ++
      [⟨prompt_to_use, response_text, selected_persona, has_image, request_type⟩]

/-- Embedding of the chat-history effect of `process_nutrition_request`
(`app.py` lines 2108-2525), by explicit state passing on the
`st.session_state.chat_history` list.  An unsafe prompt short-circuits
into the flagged record (lines 2112-2132); otherwise the `try` block
runs: an exception lands in the `except` handler's apology record (lines
2511-2525), a falsy response yields `""` (streaming) or the fixed
fallback text (non-streaming, line 2419), and the surviving
`response_text` is recorded by `finishNutritionRequest`. -/
def process_nutrition_request (chat_history : List ChatEntry)
    (prompt_to_use : PyStr) (has_image : Bool)
    (selected_persona request_type : PyStr) (enable_streaming : Bool)
    (gen : GenOutcome) : List ChatEntry :=
  if (check_nutrition_safety prompt_to_use).1 = false then
    chat_history ++
      [⟨prompt_to_use, flaggedResponseText, selected_persona, has_image, request_type⟩]
  else
    match gen with
    | GenOutcome.genFailure =>
      chat_history ++
        [⟨prompt_to_use, errorResponseText, selected_persona, has_image, request_type⟩]
    | GenOutcome.success t =>
      finishNutritionRequest chat_history prompt_to_use has_image
        selected_persona request_type t
    | GenOutcome.noResponse =>
      finishNutritionRequest chat_history prompt_to_use has_image
        selected_persona request_type
        (if enable_streaming then [] else noResponseText)

/-
Helper lemmas.
-/

/-- Unfolding of the substring test into the sublist relation. -/
theorem pyIn_iff {n h : PyStr} : pyIn n h = true ↔ n <:+: h := by
  simp [pyIn]

/-- Python counts the empty string as occurring in every string. -/
theorem pyIn_nil (h : PyStr) : pyIn [] h = true := by
  simp [pyIn]

/-- A contiguous fragment of `l₂` is a contiguous fragment of `l₁ ++ l₂`. -/
theorem sub_append_left (l₁ : PyStr) {x l₂ : PyStr} (h : x <:+: l₂) :
    x <:+: l₁ ++ l₂ := by
  obtain ⟨s, t, rfl⟩ := h
  exact ⟨l₁ ++ s, t, by simp⟩

/-- The first part of a join starts the joined string. -/
theorem pyJoin_cons_pre (sep w : PyStr) (rest : List PyStr) :
    w <+: pyJoin sep (w :: rest) := by
  cases rest with
  | nil => simp [pyJoin]
  | cons r rs =>
    show w <+: w ++ sep ++ pyJoin sep (r :: rs)
    rw [List.append_assoc]
    exact List.prefix_append w _

/-
Claim theorems.
-/

/-- C7: `check_nutrition_safety` flags at least "stop eating" and
"starve yourself" on the harmful sentence and rejects it, accepts
"grilled chicken with broccoli" with no flagged terms, and, with the
classifier backend absent, returns a safe verdict exactly when the
flagged-terms list is empty. -/
theorem c7_check_nutrition_safety_verdict :
    ((check_nutrition_safety (pls "stop eating and starve yourself")).1 = false
      ∧ pls "stop eating" ∈ (check_nutrition_safety (pls "stop eating and starve yourself")).2
      ∧ pls "starve yourself" ∈ (check_nutrition_safety (pls "stop eating and starve yourself")).2)
    ∧ ((check_nutrition_safety (pls "grilled chicken with broccoli")).1 = true
      ∧ (check_nutrition_safety (pls "grilled chicken with broccoli")).2 = [])
    ∧ ∀ text : PyStr,
        (check_nutrition_safety text).1 = true ↔ (check_nutrition_safety text).2 = [] := by
  refine ⟨⟨by decide, by decide, by decide⟩, ⟨by decide, by decide⟩, fun text => ?_⟩
  simp [check_nutrition_safety, List.length_eq_zero]

/-- C7 witness: the equivalence between the verdict and the emptiness of
the flagged list, instantiated at a concrete input. -/
theorem c7_check_nutrition_safety_verdict_witness :
    (check_nutrition_safety (pls "oatmeal")).1 = true
      ↔ (check_nutrition_safety (pls "oatmeal")).2 = [] :=
  c7_check_nutrition_safety_verdict.2.2 (pls "oatmeal")

/-- C3 counterexample: with allergies "peanuts, shellfish", the recipe
text "Peanut Butter Sauce" is reported safe with no warnings, because
"peanuts" (with the final "s") is not a substring of
"peanut butter sauce"; the claim predicted `isSafe = false` with a
peanut warning for such a recipe. -/
theorem c3_peanuts_counterexample :
    (filter_recipe_for_user_safety (pls "Peanut Butter Sauce") (pls "peanuts, shellfish") []).is_safe = true
    ∧ (filter_recipe_for_user_safety (pls "Peanut Butter Sauce") (pls "peanuts, shellfish") []).warnings = [] := by
  constructor
  · decide
  · decide

/-- C3 (amended): with the singular allergy token "peanut", every recipe
text containing "Peanut Butter Sauce" is flagged: `is_safe = false` and
the peanut allergen appears in a returned warning. -/
theorem c3_peanut_allergy_flagged (recipe : PyStr)
    (h : pls "Peanut Butter Sauce" <:+: recipe) :
    (filter_recipe_for_user_safety recipe (pls "peanut, shellfish") []).is_safe = false
    ∧ ∃ w ∈ (filter_recipe_for_user_safety recipe (pls "peanut, shellfish") []).warnings,
        pls "peanut" <:+: w := by
  have hl : pls "peanut" <:+: pyLower recipe := by
    have h2 := List.IsInfix.map Char.toLower h
    have h3 : pls "peanut" <:+: (pls "Peanut Butter Sauce").map Char.toLower := by decide
    exact h3.trans h2
  have hdet : detectedAllergens recipe (pls "peanut, shellfish") =
      pls "peanut" :: List.filter (fun a => pyIn a (pyLower recipe)) [pls "shellfish"] := by
    have hparse : parsedAllergies (pls "peanut, shellfish") = [pls "peanut", pls "shellfish"] := by
      decide
    rw [detectedAllergens, hparse]
    exact List.filter_cons_of_pos (pyIn_iff.mpr hl)
  constructor
  · show (detectedAllergens recipe (pls "peanut, shellfish")).isEmpty = false
    rw [hdet]
    rfl
  · refine ⟨pls "⚠️ **ALLERGY WARNING**: This recipe contains: "
        ++ pyJoin (pls ", ") (detectedAllergens recipe (pls "peanut, shellfish")), ?_, ?_⟩
    · show _ ∈ recipeWarnings recipe (pls "peanut, shellfish") []
      rw [recipeWarnings, if_pos (by rw [hdet]; exact List.cons_ne_nil _ _)]
      exact List.mem_append_left _ (List.mem_singleton.mpr rfl)
    · rw [hdet]
      exact sub_append_left _ (pyJoin_cons_pre (pls ", ") (pls "peanut") _).isInfix

/-- C3 witness: the amended claim at the concrete recipe text
"Peanut Butter Sauce". -/
theorem c3_peanut_allergy_flagged_witness :
    (filter_recipe_for_user_safety (pls "Peanut Butter Sauce") (pls "peanut, shellfish") []).is_safe = false
    ∧ ∃ w ∈ (filter_recipe_for_user_safety (pls "Peanut Butter Sauce") (pls "peanut, shellfish") []).warnings,
        pls "peanut" <:+: w :=
  c3_peanut_allergy_flagged (pls "Peanut Butter Sauce") (by decide)

/-- C10: a non-empty allergies string with an empty-after-trimming comma
token (for example a trailing comma, or only whitespace) makes the empty
string an allergen, which is a substring of every recipe, so every
recipe is reported unsafe. -/
theorem c10_empty_allergy_token_unsafe (user_allergies_str recipe : PyStr)
    (unpref : List PyStr) (h1 : user_allergies_str ≠ [])
    (h2 : ∃ tok ∈ pySplitComma user_allergies_str, pyStrip tok = []) :
    (filter_recipe_for_user_safety recipe user_allergies_str unpref).is_safe = false := by
  obtain ⟨tok, htok, hstrip⟩ := h2
  have hmem : ([] : PyStr) ∈ parsedAllergies user_allergies_str := by
    rw [parsedAllergies, if_pos h1]
    exact List.mem_map.mpr ⟨tok, htok, by rw [hstrip]; rfl⟩
  have hdet : ([] : PyStr) ∈ detectedAllergens recipe user_allergies_str := by
    rw [detectedAllergens]
    exact List.mem_filter.mpr ⟨hmem, pyIn_nil _⟩
  show (detectedAllergens recipe user_allergies_str).isEmpty = false
  rw [List.isEmpty_eq_false]
  exact List.ne_nil_of_mem hdet

/-- C10 witness: allergies "peanuts," (trailing comma) make the recipe
"grilled rice" unsafe. -/
theorem c10_empty_allergy_token_unsafe_witness :
    (filter_recipe_for_user_safety (pls "grilled rice") (pls "peanuts,") []).is_safe = false :=
  c10_empty_allergy_token_unsafe (pls "peanuts,") (pls "grilled rice") []
    (by decide) (by decide)

/-- C8: the annotated text always ends with the unchanged recipe text;
when warnings exist the annotation block is prepended and separated from
the recipe by a blank line; with no detected allergen and no detected
unpreferred food the text passes through identically. -/
theorem c8_filter_preserves_recipe (recipe astr : PyStr) (unpref : List PyStr) :
    recipe <:+ (filter_recipe_for_user_safety recipe astr unpref).filtered_content
    ∧ (recipeWarnings recipe astr unpref ≠ [] →
        ∃ wt, (filter_recipe_for_user_safety recipe astr unpref).filtered_content
          = wt ++ pls "\n\n" ++ recipe)
    ∧ (detectedAllergens recipe astr = [] →
        detectedUnpreferred recipe unpref = [] →
        (filter_recipe_for_user_safety recipe astr unpref).filtered_content = recipe) := by
  have hfc : (filter_recipe_for_user_safety recipe astr unpref).filtered_content =
      if recipeWarnings recipe astr unpref ≠ [] then
        (pls "\n\n" ++ pyJoin (pls "\n") (recipeWarnings recipe astr unpref)
          ++ (if !(detectedAllergens recipe astr).isEmpty then
                pls "\n\n🚨 **Please consult with a healthcare provider before consuming foods you\u0027re allergic to.**"
              else []))
          ++ pls "\n\n" ++ recipe
      else recipe := rfl
  refine ⟨?_, fun hw => ?_, fun ha hu => ?_⟩
  · rw [hfc]
    split_ifs
    · exact List.suffix_append _ recipe
    · exact List.suffix_append _ recipe
    · exact List.suffix_refl recipe
  · rw [hfc, if_pos hw]
    exact ⟨_, rfl⟩
  · have hwz : recipeWarnings recipe astr unpref = [] := by
      rw [recipeWarnings, ha, hu]
      simp
    rw [hfc, if_neg (by simp [hwz])]

/-- C8 witness: with no allergies and no unpreferred foods, a concrete
recipe passes through unchanged, via the third conjunct. -/
theorem c8_filter_preserves_recipe_witness :
    (filter_recipe_for_user_safety (pls "steamed rice") (pls "") []).filtered_content
      = pls "steamed rice" :=
  (c8_filter_preserves_recipe (pls "steamed rice") (pls "") []).2.2
    (by decide) (by decide)

/-- Rounding an integer-valued rational returns it unchanged. -/
theorem pyRound0_intCast (n : ℤ) : pyRound0 (n : ℚ) = n := by
  norm_num [pyRound0]

/-- Rounding an integer-valued rational to one decimal returns it unchanged. -/
theorem pyRound1_intCast (n : ℤ) : pyRound1 (n : ℚ) = n := by
  have h : ((n : ℚ) * 10) = (((n * 10 : ℤ) : ℚ)) := by push_cast; ring
  rw [pyRound1, h, pyRound0_intCast]
  push_cast
  field_simp

/-- C5: with the external API unavailable (`none`), "2 eggs" with
quantity "2 servings" resolves in the local table to 140 calories tagged
"Local Database"; the unmatched "xyzfood" with "1 serving" yields the
generic default baseline (150 kcal, 8 g protein, 20 g carbs, 5 g fat) at
multiplier 1, tagged "Estimated" with `success = false`. -/
theorem c5_calculate_nutrition_fallback :
    ((calculate_nutrition none (pls "2 eggs") (pls "2 servings")).calories = 140
      ∧ (calculate_nutrition none (pls "2 eggs") (pls "2 servings")).source = pls "Local Database")
    ∧ ((calculate_nutrition none (pls "xyzfood") (pls "1 serving")).source = pls "Estimated"
      ∧ (calculate_nutrition none (pls "xyzfood") (pls "1 serving")).success = false
      ∧ (calculate_nutrition none (pls "xyzfood") (pls "1 serving")).calories = 150
      ∧ (calculate_nutrition none (pls "xyzfood") (pls "1 serving")).protein = 8
      ∧ (calculate_nutrition none (pls "xyzfood") (pls "1 serving")).carbs = 20
      ∧ (calculate_nutrition none (pls "xyzfood") (pls "1 serving")).fat = 5
      ∧ nutritionMultiplier (pyLower (pls "xyzfood")) (pls "1 serving") = 1) := by
  have hm1 : nutritionMultiplier (pyLower (pls "2 eggs")) (pls "2 servings") = 2 := by
    rw [nutritionMultiplier, if_pos (by decide)]
  have hfind1 : food_db.find? (fun e => pyIn e.key (pyLower (pls "2 eggs")))
      = some ⟨pls "egg", 70, 6, 0.5, 5⟩ := by
    simp only [food_db]
    exact List.find?_cons_of_pos _ (by decide)
  have hc1 : calculate_nutrition none (pls "2 eggs") (pls "2 servings")
      = ⟨pls "2 eggs", pls "2 servings", pyRound0 (70 * 2), pyRound1 (6 * 2),
          pyRound1 (0.5 * 2), pyRound1 (5 * 2), true, pls "Local Database"⟩ := by
    simp only [calculate_nutrition]
    rw [hfind1, hm1]
  have hm2 : nutritionMultiplier (pyLower (pls "xyzfood")) (pls "1 serving") = 1 := by
    rw [nutritionMultiplier, if_neg (by decide), if_neg (by decide), if_neg (by decide)]
  have hfind2 : food_db.find? (fun e => pyIn e.key (pyLower (pls "xyzfood"))) = none :=
    List.find?_eq_none.mpr (by decide)
  have hest : estimatedNutrition (pyLower (pls "xyzfood")) = (150, 8, 20, 5) := by
    rw [estimatedNutrition, if_neg (by decide), if_neg (by decide), if_neg (by decide),
      if_neg (by decide)]
  have hc2 : calculate_nutrition none (pls "xyzfood") (pls "1 serving")
      = ⟨pls "xyzfood", pls "1 serving", pyRound0 (150 * 1), pyRound1 (8 * 1),
          pyRound1 (20 * 1), pyRound1 (5 * 1), false, pls "Estimated"⟩ := by
    simp only [calculate_nutrition]
    rw [hfind2, hm2, hest]
  refine ⟨⟨?_, ?_⟩, ?_, ?_, ?_, ?_, ?_, ?_, hm2⟩
  · rw [hc1]
    show pyRound0 (70 * 2) = 140
    have h : ((70 : ℚ) * 2) = ((140 : ℤ) : ℚ) := by norm_num
    rw [h, pyRound0_intCast]
  · rw [hc1]
  · rw [hc2]
  · rw [hc2]
  · rw [hc2]
    show pyRound0 (150 * 1) = 150
    have h : ((150 : ℚ) * 1) = ((150 : ℤ) : ℚ) := by norm_num
    rw [h, pyRound0_intCast]
  · rw [hc2]
    show pyRound1 (8 * 1) = 8
    have h : ((8 : ℚ) * 1) = ((8 : ℤ) : ℚ) := by norm_num
    rw [h, pyRound1_intCast]
    norm_num
  · rw [hc2]
    show pyRound1 (20 * 1) = 20
    have h : ((20 : ℚ) * 1) = ((20 : ℤ) : ℚ) := by norm_num
    rw [h, pyRound1_intCast]
    norm_num
  · rw [hc2]
    show pyRound1 (5 * 1) = 5
    have h : ((5 : ℚ) * 1) = ((5 : ℤ) : ℚ) := by norm_num
    rw [h, pyRound1_intCast]
    norm_num

/-- Skipping a file whose name is already stored leaves the state
untouched (the per-file branch of the uploader loop). -/
theorem uploader_skips_known_name (stored : List Document)
    (name content ftype : PyStr) (rest : List (PyStr × PyStr × PyStr))
    (h : ∃ doc ∈ stored, doc.name = name) :
    nutrition_document_uploader stored ((name, content, ftype) :: rest)
      = nutrition_document_uploader stored rest := by
  obtain ⟨doc, hmem, hname⟩ := h
  have hany : stored.any (fun doc => decide (doc.name = name)) = true :=
    List.any_eq_true.mpr ⟨doc, hmem, decide_eq_true hname⟩
  simp only [nutrition_document_uploader]
  rw [if_pos hany]

/-- Names stay pairwise distinct across any upload batch. -/
theorem uploader_names_nodup (files : List (PyStr × PyStr × PyStr)) :
    ∀ stored : List Document, (stored.map Document.name).Nodup →
      ((nutrition_document_uploader stored files).map Document.name).Nodup := by
  induction files with
  | nil => exact fun stored h => h
  | cons f rest ih =>
    intro stored hnd
    obtain ⟨name, content, ftype⟩ := f
    simp only [nutrition_document_uploader]
    split_ifs with h1 h2
    · exact ih stored hnd
    · refine ih (stored ++ [mkDocument name content ftype]) ?_
      rw [List.map_append]
      refine List.Nodup.append hnd (List.nodup_singleton _) ?_
      intro a ha hb
      have hname : a = name := by
        simpa [mkDocument] using hb
      subst hname
      obtain ⟨doc, hdoc, hdn⟩ := List.mem_map.mp ha
      exact h1 (List.any_eq_true.mpr ⟨doc, hdoc, decide_eq_true hdn⟩)
    · exact ih stored hnd

/-- C9: re-uploading a file whose name is already stored is a no-op, the
stored list never holds two documents with the same name, and uploading
the same (successfully ingested) file twice stores exactly one document. -/
theorem c9_uploader_idempotent :
    (∀ (stored : List Document) (files : List (PyStr × PyStr × PyStr)),
        (stored.map Document.name).Nodup →
        ((nutrition_document_uploader stored files).map Document.name).Nodup)
    ∧ (∀ (stored : List Document) (name content ftype : PyStr)
          (rest : List (PyStr × PyStr × PyStr)),
        (∃ doc ∈ stored, doc.name = name) →
        nutrition_document_uploader stored ((name, content, ftype) :: rest)
          = nutrition_document_uploader stored rest)
    ∧ (∀ name content ftype : PyStr, content ≠ [] →
        nutrition_document_uploader [] [(name, content, ftype), (name, content, ftype)]
          = [mkDocument name content ftype]) := by
  refine ⟨fun stored files => uploader_names_nodup files stored,
    fun stored name content ftype rest h =>
      uploader_skips_known_name stored name content ftype rest h,
    fun name content ftype hc => ?_⟩
  simp only [nutrition_document_uploader]
  rw [if_neg (by simp), if_pos hc]
  rw [if_pos (by simp [mkDocument])]
  simp

/-- C9 witness: uploading the same concrete file twice from an empty
store yields exactly the one document, and the no-op branch at a stored
name. -/
theorem c9_uploader_idempotent_witness :
    nutrition_document_uploader []
        [(pls "diet.txt", pls "rice and beans", pls "text/plain"),
         (pls "diet.txt", pls "rice and beans", pls "text/plain")]
      = [mkDocument (pls "diet.txt") (pls "rice and beans") (pls "text/plain")] :=
  c9_uploader_idempotent.2.2 (pls "diet.txt") (pls "rice and beans") (pls "text/plain")
    (by decide)

/-- A chunk with positive score is collected by the scoring loop. -/
theorem scoredChunksFrom_complete (query : PyStr) :
    ∀ (chunks : List PyStr) (i : Nat) (c : PyStr), c ∈ chunks →
      0 < scoreOf query c →
      ∃ e ∈ scoredChunksFrom query chunks i, e.chunk = c := by
  intro chunks
  induction chunks with
  | nil => intro i c h; exact absurd h (by simp)
  | cons d ds ih =>
    intro i c hc hs
    rcases List.mem_cons.mp hc with rfl | hmem
    · refine ⟨⟨c, scoreOf query c, i⟩, ?_, rfl⟩
      rw [scoredChunksFrom, if_pos hs]
      exact List.mem_append_left _ (by simp)
    · obtain ⟨e, he, hec⟩ := ih (i + 1) c hmem hs
      exact ⟨e, List.mem_append_right _ he, hec⟩

/-- Every entry of the scoring loop has a positive score, and that score
is the score of its chunk. -/
theorem scoredChunksFrom_sound (query : PyStr) :
    ∀ (chunks : List PyStr) (i : Nat) (e : ScoredChunk),
      e ∈ scoredChunksFrom query chunks i →
      0 < e.score ∧ e.score = scoreOf query e.chunk := by
  intro chunks
  induction chunks with
  | nil => intro i e h; exact absurd h (by simp [scoredChunksFrom])
  | cons d ds ih =>
    intro i e he
    rw [scoredChunksFrom] at he
    rcases List.mem_append.mp he with hl | hr
    · by_cases hs : 0 < scoreOf query d
      · rw [if_pos hs] at hl
        rcases List.mem_singleton.mp hl with rfl
        exact ⟨hs, rfl⟩
      · rw [if_neg hs] at hl
        exact absurd hl (by simp)
    · exact ih (i + 1) e hr

/-- C4: a chunk containing the whole lower-cased query verbatim scores
exactly its per-token hits plus the flat bonus of 5 and is collected as a
candidate; a chunk whose score is 0 never appears among the returned
results, for any `top_k`. -/
theorem c4_keyword_search_scores (query : PyStr) (chunks : List PyStr)
    (top_k : Nat) (c : PyStr) :
    (c ∈ chunks → pyIn (pyLower query) (pyLower c) = true →
      scoreOf query c = tokenHits query c + 5
      ∧ ∃ e ∈ scoredChunksFrom query chunks 0, e.chunk = c)
    ∧ (scoreOf query c = 0 →
      ∀ e ∈ simple_keyword_search query chunks top_k, e.chunk ≠ c) := by
  constructor
  · intro hmem hphrase
    have hscore : scoreOf query c = tokenHits query c + 5 := by
      rw [scoreOf, if_pos hphrase]
    exact ⟨hscore, scoredChunksFrom_complete query chunks 0 c hmem (by omega)⟩
  · intro hzero e hsearch hchunk
    rw [simple_keyword_search] at hsearch
    have h1 : e ∈ List.insertionSort byScoreDesc (scoredChunksFrom query chunks 0) :=
      List.mem_of_mem_take hsearch
    have h2 : e ∈ scoredChunksFrom query chunks 0 :=
      (List.perm_insertionSort byScoreDesc _).mem_iff.mp h1
    obtain ⟨hpos, hsc⟩ := scoredChunksFrom_sound query chunks 0 e h2
    rw [hchunk, hzero] at hsc
    omega

/-- C4 witness: the phrase-bonus conjunct at a concrete query and chunk
list. -/
theorem c4_keyword_search_scores_witness :
    scoreOf (pls "protein intake") (pls "daily protein intake guide")
        = tokenHits (pls "protein intake") (pls "daily protein intake guide") + 5
    ∧ ∃ e ∈ scoredChunksFrom (pls "protein intake") [pls "daily protein intake guide"] 0,
        e.chunk = pls "daily protein intake guide" :=
  (c4_keyword_search_scores (pls "protein intake") [pls "daily protein intake guide"]
    3 (pls "daily protein intake guide")).1 (by decide) (by decide)

/-- With all chunk scores zero the scoring loop collects nothing. -/
theorem scoredChunksFrom_all_zero (query : PyStr) :
    ∀ (chunks : List PyStr) (i : Nat), (∀ c ∈ chunks, scoreOf query c = 0) →
      scoredChunksFrom query chunks i = [] := by
  intro chunks
  induction chunks with
  | nil => intro i _; rfl
  | cons d ds ih =>
    intro i h
    rw [scoredChunksFrom, if_neg (by rw [h d (by simp)]; omega)]
    exact ih (i + 1) (fun c hc => h c (List.mem_cons.mpr (Or.inr hc)))

/-- With all chunk scores zero no document contributes to the pool. -/
theorem allRelevantChunks_all_zero (query : PyStr) :
    ∀ documents : List Document,
      (∀ d ∈ documents, ∀ c ∈ d.chunks, scoreOf query c = 0) →
      allRelevantChunks query documents = [] := by
  intro documents
  induction documents with
  | nil => intro _; rfl
  | cons doc rest ih =>
    intro h
    have hsearch : simple_keyword_search query doc.chunks 2 = [] := by
      rw [simple_keyword_search,
        scoredChunksFrom_all_zero query doc.chunks 0 (h doc (by simp))]
      rfl
    rw [allRelevantChunks]
    rw [ih (fun d hd => h d (List.mem_cons.mpr (Or.inr hd)))]
    split_ifs with hc
    · rw [hsearch]
      rfl
    · rfl

/-- C6: the context builder returns the empty string on an empty document
list, returns the empty string when every chunk of every document scores
zero against the query, and otherwise renders at most three chunk
entries. -/
theorem c6_build_context_bounds (query : PyStr) (documents : List Document) :
    build_context_from_documents query [] = []
    ∧ ((∀ d ∈ documents, ∀ c ∈ d.chunks, scoreOf query c = 0) →
        build_context_from_documents query documents = [])
    ∧ (build_context_from_documents query documents = []
        ∨ ∃ parts : List PyStr, parts.length ≤ 3
            ∧ build_context_from_documents query documents = renderContext parts) := by
  refine ⟨by simp [build_context_from_documents], fun h => ?_, ?_⟩
  · by_cases hd : documents = []
    · simp [build_context_from_documents, hd]
    · simp only [build_context_from_documents, if_neg hd]
      rw [allRelevantChunks_all_zero query documents h]
      simp
  · by_cases hd : documents = []
    · left
      simp [build_context_from_documents, hd]
    · by_cases hp : allRelevantChunks query documents = []
      · left
        simp only [build_context_from_documents, if_neg hd]
        rw [hp]
        simp
      · right
        refine ⟨((List.insertionSort relByScoreDesc (allRelevantChunks query documents)).take 3).map
            (fun c => pls "From " ++ c.document ++ pls ":\n" ++ c.text), ?_, ?_⟩
        · rw [List.length_map]
          exact List.length_take_le 3 _
        · simp only [build_context_from_documents, if_neg hd, if_neg hp]

/-- C6 witness: a document whose only chunk shares nothing with the query
yields the empty context, via the all-zero conjunct. -/
theorem c6_build_context_bounds_witness :
    build_context_from_documents (pls "protein")
        [⟨pls "doc.txt", pls "zzz", [pls "zzz"], pls "text/plain", 3⟩] = [] :=
  (c6_build_context_bounds (pls "protein")
      [⟨pls "doc.txt", pls "zzz", [pls "zzz"], pls "text/plain", 3⟩]).2.1
    (by decide)

/-- Every word produced by the splitting loop is non-empty and free of
whitespace, provided the accumulator is. -/
theorem pyWordsAux_sound :
    ∀ (s : PyStr) (acc : PyStr), (∀ ch ∈ acc, pyWs ch = false) →
      ∀ w ∈ pyWordsAux s acc, w ≠ [] ∧ ∀ ch ∈ w, pyWs ch = false := by
  intro s
  induction s with
  | nil =>
    intro acc hacc w hw
    rw [pyWordsAux] at hw
    split_ifs at hw with h
    · exact absurd hw (by simp)
    · rcases List.mem_singleton.mp hw with rfl
      exact ⟨by simpa using h, fun ch hch => hacc ch (List.mem_reverse.mp hch)⟩
  | cons c cs ih =>
    intro acc hacc w hw
    rw [pyWordsAux] at hw
    split_ifs at hw with h1 h2
    · exact ih [] (by simp) w hw
    · rcases List.mem_cons.mp hw with rfl | hw2
      · exact ⟨by simpa using h2, fun ch hch => hacc ch (List.mem_reverse.mp hch)⟩
      · exact ih [] (by simp) w hw2
    · refine ih (c :: acc) ?_ w hw
      intro ch hch
      rcases List.mem_cons.mp hch with rfl | hm
      · simpa using h1
      · exact hacc ch hm

/-- Every word of a Python whitespace split is non-empty and free of
whitespace. -/
theorem pyWords_sound (s : PyStr) :
    ∀ w ∈ pyWords s, w ≠ [] ∧ ∀ ch ∈ w, pyWs ch = false :=
  pyWordsAux_sound s [] (by simp)

/-- A space-join of whitespace-free non-empty words starts with a
non-whitespace character. -/
theorem pyJoin_words_head (ts : List PyStr) (hne : ts ≠ [])
    (hw : ∀ w ∈ ts, w ≠ [] ∧ ∀ ch ∈ w, pyWs ch = false) :
    ∃ c rest, pyJoin [' '] ts = c :: rest ∧ pyWs c = false := by
  obtain ⟨w, ts', rfl⟩ := List.exists_cons_of_ne_nil hne
  obtain ⟨hwne, hwws⟩ := hw w (List.mem_cons_self w ts')
  obtain ⟨c, w', rfl⟩ := List.exists_cons_of_ne_nil hwne
  cases ts' with
  | nil => exact ⟨c, w', rfl, hwws c (List.mem_cons_self c w')⟩
  | cons r rs =>
    exact ⟨c, w' ++ ([' '] ++ pyJoin [' '] (r :: rs)), by simp [pyJoin],
      hwws c (List.mem_cons_self c w')⟩

/-- A space-join of whitespace-free non-empty words ends with a
non-whitespace character (stated via its reversal). -/
theorem pyJoin_words_last :
    ∀ ts : List PyStr, ts ≠ [] → (∀ w ∈ ts, w ≠ [] ∧ ∀ ch ∈ w, pyWs ch = false) →
      ∃ c rest, (pyJoin [' '] ts).reverse = c :: rest ∧ pyWs c = false := by
  intro ts
  induction ts with
  | nil => intro hne _; exact absurd rfl hne
  | cons w ts' ih =>
    intro _ hw
    cases ts' with
    | nil =>
      obtain ⟨hwne, hwws⟩ := hw w (by simp)
      obtain ⟨c, rest, hrev⟩ :=
        List.exists_cons_of_ne_nil (l := w.reverse) (by simpa using hwne)
      refine ⟨c, rest, by simpa [pyJoin] using hrev, ?_⟩
      have hcm : c ∈ w.reverse := by
        rw [hrev]
        exact List.mem_cons_self c rest
      exact hwws c (List.mem_reverse.mp hcm)
    | cons r rs =>
      obtain ⟨c, rest, hrev, hc⟩ := ih (by simp) (fun v hv => hw v (by simp [hv]))
      refine ⟨c, rest ++ (w ++ [' ']).reverse, ?_, hc⟩
      show ((w ++ [' ']) ++ pyJoin [' '] (r :: rs)).reverse
        = c :: (rest ++ (w ++ [' ']).reverse)
      rw [List.reverse_append, hrev]
      rfl

/-- Stripping leaves a string with non-whitespace first and last
characters unchanged. -/
theorem pyStrip_of_ends {l : PyStr}
    (hhead : ∃ c rest, l = c :: rest ∧ pyWs c = false)
    (hlast : ∃ c rest, l.reverse = c :: rest ∧ pyWs c = false) :
    pyStrip l = l := by
  obtain ⟨c, rest, hl, hc⟩ := hhead
  obtain ⟨d, rl, hr, hd⟩ := hlast
  rw [pyStrip]
  rw [hl, List.dropWhile_cons, if_neg (by simp [hc]), ← hl]
  rw [hr, List.dropWhile_cons, if_neg (by simp [hd]), ← hr, List.reverse_reverse]

/-- C2 counterexample: a 10-word text with `chunkSize = 20` and
`overlap = 15` satisfies all the claim's hypotheses (positive word count
below the chunk size, overlap below the chunk size) yet produces two
chunks, because the window step is `chunkSize - overlap = 5 < 10`. -/
theorem c2_two_chunks_counterexample :
    0 < (pyWords (pls "a a a a a a a a a a")).length
    ∧ (pyWords (pls "a a a a a a a a a a")).length < 20
    ∧ (15 : Nat) < 20
    ∧ (chunk_text (pls "a a a a a a a a a a") 20 15).length = 2 := by
  refine ⟨by decide, by decide, by decide, by decide⟩

/-- C2 (amended): when the whitespace-token count is positive and at most
`chunkSize - overlap` (the window step), `chunk_text` produces exactly
one chunk holding all the words rejoined with single spaces. -/
theorem c2_chunk_single (text : PyStr) (chunk_size overlap : Nat)
    (h1 : 0 < (pyWords text).length)
    (h2 : (pyWords text).length ≤ chunk_size - overlap) :
    chunk_text text chunk_size overlap = [pyJoin [' '] (pyWords text)] := by
  have hstep : 0 < chunk_size - overlap := lt_of_lt_of_le h1 h2
  have hdiv : ((pyWords text).length + (chunk_size - overlap) - 1)
      / (chunk_size - overlap) = 1 :=
    Nat.div_eq_of_lt_le (by omega) (by omega)
  have htake : List.take chunk_size (List.drop 0 (pyWords text)) = pyWords text := by
    rw [List.drop_zero]
    exact List.take_of_length_le (le_trans h2 (Nat.sub_le _ _))
  have hts : pyWords text ≠ [] := by
    intro hz
    rw [hz] at h1
    simp at h1
  have hsound := pyWords_sound text
  have hhead := pyJoin_words_head (pyWords text) hts hsound
  have hstrip : pyStrip (pyJoin [' '] (pyWords text)) = pyJoin [' '] (pyWords text) :=
    pyStrip_of_ends hhead (pyJoin_words_last (pyWords text) hts hsound)
  have hne : pyJoin [' '] (pyWords text) ≠ [] := by
    obtain ⟨c, rest, hl, _⟩ := hhead
    rw [hl]
    simp
  simp only [chunk_text]
  rw [hdiv, List.range'_one]
  simp only [List.map_cons, List.map_nil, htake]
  simp only [List.filterMap_cons, List.filterMap_nil]
  rw [hstrip, if_pos hne]

/-- C2 witness: a two-word text with the default parameters 500 / 50
yields the single rejoined chunk. -/
theorem c2_chunk_single_witness :
    chunk_text (pls "hello world") 500 50
      = [pyJoin [' '] (pyWords (pls "hello world"))] :=
  c2_chunk_single (pls "hello world") 500 50 (by decide) (by decide)


/-- The tail of the request pipeline appends exactly one record, carrying
either the computed response text or, when the buggy one-argument recipe
filter call raises, the fixed apology. -/
theorem finishNutritionRequest_spec (chat_history : List ChatEntry)
    (prompt_to_use : PyStr) (has_image : Bool)
    (selected_persona request_type response_text : PyStr) :
    ∃ e : ChatEntry,
      finishNutritionRequest chat_history prompt_to_use has_image selected_persona
          request_type response_text = chat_history ++ [e]
      ∧ e.prompt = prompt_to_use
      ∧ (e.response = response_text ∨ e.response = errorResponseText) := by
  rw [finishNutritionRequest]
  split_ifs
  · exact ⟨_, rfl, rfl, Or.inr rfl⟩
  · exact ⟨_, rfl, rfl, Or.inl rfl⟩

/-- C1: every request handled by `process_nutrition_request` appends
exactly one record to the chat history — whichever terminal outcome
occurs — with the fixed blocked text when the safety check rejects the
prompt, the fixed apology when the pipeline raises, and the response
text (or, when the response triggers the faulty recipe-filter call, the
apology) otherwise. -/
theorem c1_request_appends_one_record (chat_history : List ChatEntry)
    (prompt_to_use : PyStr) (has_image : Bool)
    (selected_persona request_type : PyStr) (enable_streaming : Bool)
    (gen : GenOutcome) :
    ∃ e : ChatEntry,
      process_nutrition_request chat_history prompt_to_use has_image selected_persona
          request_type enable_streaming gen = chat_history ++ [e]
      ∧ (process_nutrition_request chat_history prompt_to_use has_image selected_persona
          request_type enable_streaming gen).length = chat_history.length + 1
      ∧ e.prompt = prompt_to_use
      ∧ ((check_nutrition_safety prompt_to_use).1 = false →
          e.response = flaggedResponseText)
      ∧ (gen = GenOutcome.genFailure → (check_nutrition_safety prompt_to_use).1 = true →
          e.response = errorResponseText)
      ∧ (∀ t : PyStr, gen = GenOutcome.success t →
          (check_nutrition_safety prompt_to_use).1 = true →
          (e.response = t ∨ e.response = errorResponseText)) := by
  by_cases hs : (check_nutrition_safety prompt_to_use).1 = false
  · have hpr : process_nutrition_request chat_history prompt_to_use has_image
        selected_persona request_type enable_streaming gen
        = chat_history ++ [⟨prompt_to_use, flaggedResponseText, selected_persona,
            has_image, request_type⟩] := by
      rw [process_nutrition_request.eq_def, if_pos hs]
    refine ⟨_, hpr, ?_, rfl, fun _ => rfl, ?_, ?_⟩
    · rw [hpr]
      simp
    · intro _ ht
      rw [ht] at hs
      exact absurd hs (by simp)
    · intro t _ ht
      rw [ht] at hs
      exact absurd hs (by simp)
  · cases gen with
    | genFailure =>
      have hpr : process_nutrition_request chat_history prompt_to_use has_image
          selected_persona request_type enable_streaming GenOutcome.genFailure
          = chat_history ++ [⟨prompt_to_use, errorResponseText, selected_persona,
              has_image, request_type⟩] := by
        rw [process_nutrition_request.eq_def, if_neg hs]
      refine ⟨_, hpr, ?_, rfl, fun hf => absurd hf hs, fun _ _ => rfl,
        fun t ht _ => GenOutcome.noConfusion ht⟩
      rw [hpr]
      simp
    | success t =>
      obtain ⟨e, heq, hp, hr⟩ := finishNutritionRequest_spec chat_history prompt_to_use
        has_image selected_persona request_type t
      have hpr : process_nutrition_request chat_history prompt_to_use has_image
          selected_persona request_type enable_streaming (GenOutcome.success t)
          = chat_history ++ [e] := by
        rw [process_nutrition_request.eq_def, if_neg hs]
        exact heq
      refine ⟨e, hpr, ?_, hp, fun hf => absurd hf hs,
        fun hgen => GenOutcome.noConfusion hgen, fun u hu _ => ?_⟩
      · rw [hpr]
        simp
      · cases hu
        exact hr
    | noResponse =>
      obtain ⟨e, heq, hp, hr⟩ := finishNutritionRequest_spec chat_history prompt_to_use
        has_image selected_persona request_type
        (if enable_streaming then [] else noResponseText)
      have hpr : process_nutrition_request chat_history prompt_to_use has_image
          selected_persona request_type enable_streaming GenOutcome.noResponse
          = chat_history ++ [e] := by
        rw [process_nutrition_request.eq_def, if_neg hs]
        exact heq
      refine ⟨e, hpr, ?_, hp, fun hf => absurd hf hs,
        fun hgen => GenOutcome.noConfusion hgen,
        fun u hu => GenOutcome.noConfusion hu⟩
      rw [hpr]
      simp

/-- C1 witness: a safe concrete prompt with a successful generation
appends exactly one record. -/
theorem c1_request_appends_one_record_witness :
    ∃ e : ChatEntry,
      process_nutrition_request ([] : List ChatEntry) (pls "best veggies") false
          (pls "Coach") (pls "text") false (GenOutcome.success (pls "ok"))
        = ([] : List ChatEntry) ++ [e]
      ∧ (process_nutrition_request ([] : List ChatEntry) (pls "best veggies") false
          (pls "Coach") (pls "text") false (GenOutcome.success (pls "ok"))).length
        = ([] : List ChatEntry).length + 1
      ∧ e.prompt = pls "best veggies"
      ∧ ((check_nutrition_safety (pls "best veggies")).1 = false →
          e.response = flaggedResponseText)
      ∧ (GenOutcome.success (pls "ok") = GenOutcome.genFailure →
          (check_nutrition_safety (pls "best veggies")).1 = true →
          e.response = errorResponseText)
      ∧ (∀ t : PyStr, GenOutcome.success (pls "ok") = GenOutcome.success t →
          (check_nutrition_safety (pls "best veggies")).1 = true →
          (e.response = t ∨ e.response = errorResponseText)) :=
  c1_request_appends_one_record [] (pls "best veggies") false (pls "Coach")
    (pls "text") false (GenOutcome.success (pls "ok"))
